import Mathlib

/-!
Shallow embedding of `src/hwp-mcp/hwp-mcp-update/src/tools/hwp_table_tools.py`.

The module is a thin adapter: a class `HwpTableTools` holding an optional
external controller reference, one method per table operation, plus a free
function `parse_table_data`.  We embed:

* Python values produced by `json.loads` as the inductive `JValue`;
* `json.loads` itself as a total recursive-descent JSON parser over the
  string's characters (`json_loads`), returning `Except String JValue`
  exactly where Python raises `json.JSONDecodeError`.  Python's decode-error
  message text (line/column positions) is modelled abstractly by short fixed
  strings, since the adapter only ever embeds `str(e)` opaquely into its own
  messages;
* Python's `str()` conversion as `pyStr` (and `repr()` as `pyRepr`, used by
  `str` on containers).  Float formatting is modelled as exact decimal
  rendering; binary64 shortest-round-trip repr and the switch to exponent
  notation for very large/small magnitudes are not modelled digit-for-digit
  (no claim depends on float rendering);
* the external controller as a structure of functions returning
  `Except String _`: `.error e` models the method raising an exception whose
  `str()` is `e`;
* each adapter method as a pure function from the optional controller and its
  arguments to the returned status string paired with the trace of controller
  invocations it performed, in order.
-/

/-- Python values arising from `json.loads`: `None`, `bool`, `int`, `float`,
`str`, `list`, `dict` (plus the non-standard `NaN` / `Infinity` constants the
Python parser accepts by default). A `float` parsed from JSON text is kept as
the exact decimal `m * 10 ^ e`. -/
inductive JValue where
  | null
  | bool (b : Bool)
  | int (n : Int)
  | float (m : Int) (e : Int)
  | nan
  | inf (neg : Bool)
  | str (s : String)
  | arr (elems : List JValue)
  | obj (fields : List (String × JValue))
deriving Inhabited

/-- JSON whitespace skipping (space, tab, newline, carriage return). -/
def skipWs : List Char → List Char
  | c :: cs =>
    if c = ' ' ∨ c = '\t' ∨ c = '\n' ∨ c = '\r' then skipWs cs else c :: cs
  | [] => []

/-- Take a maximal run of ASCII digits. -/
def takeDigits : List Char → List Char × List Char
  | c :: cs =>
    if c.isDigit then
      let (ds, rest) := takeDigits cs
      (c :: ds, rest)
    else ([], c :: cs)
  | [] => ([], [])

/-- Digits to a natural number (most significant first). -/
def digitsToNat (ds : List Char) : Nat :=
  ds.foldl (fun acc c => acc * 10 + (c.toNat - '0'.toNat)) 0

/-- Parse a JSON number (already known to start with `-` or a digit).
JSON grammar: `-? (0 | [1-9][0-9]*) (\.[0-9]+)? ([eE][-+]?[0-9]+)?`.
Integer syntax yields a Python `int`, fraction/exponent syntax a `float`. -/
def parseNumber (cs : List Char) : Option (JValue × List Char) :=
  let (neg, cs1) := match cs with
    | '-' :: r => (true, r)
    | _ => (false, cs)
  match cs1 with
  | c :: r =>
    if ¬ c.isDigit then none
    else
      -- leading-zero rule: the integer part is `0` or starts with 1-9
      let (intDs, rest1) :=
        if c = '0' then ([c], r)
        else
          let (ds, rr) := takeDigits r
          (c :: ds, rr)
      -- optional fraction
      let fracStep : Option (List Char × List Char) :=
        match rest1 with
        | '.' :: r2 =>
          let (fds, rr) := takeDigits r2
          if fds = [] then none else some (fds, rr)
        | _ => some ([], rest1)
      match fracStep with
      | none => none
      | some (fracDs, rest2) =>
        -- optional exponent
        let expStep : Option (Option Int × List Char) :=
          match rest2 with
          | 'e' :: r3 | 'E' :: r3 =>
            let (esign, r4) : Bool × List Char := match r3 with
              | '-' :: rr => (true, rr)
              | '+' :: rr => (false, rr)
              | _ => (false, r3)
            let (eds, rr) := takeDigits r4
            if eds = [] then none
            else
              let ev : Int := Int.ofNat (digitsToNat eds)
              some (some (if esign then -ev else ev), rr)
          | _ => some (none, rest2)
        match expStep with
        | none => none
        | some (expVal, rest3) =>
          let mantNat := digitsToNat (intDs ++ fracDs)
          let mant : Int := if neg then -(Int.ofNat mantNat) else Int.ofNat mantNat
          match fracDs, expVal with
          | [], none => some (.int mant, rest3)
          | _, _ =>
            let e10 : Int := (expVal.getD 0) - Int.ofNat fracDs.length
            some (.float mant e10, rest3)
  | [] => none

/-- Hex digit value. -/
def hexVal (c : Char) : Option Nat :=
  if c.isDigit then some (c.toNat - '0'.toNat)
  else if 'a' ≤ c ∧ c ≤ 'f' then some (c.toNat - 'a'.toNat + 10)
  else if 'A' ≤ c ∧ c ≤ 'F' then some (c.toNat - 'A'.toNat + 10)
  else none

/-- Parse the four hex digits of a `\uXXXX` escape. -/
def parseHex4 : List Char → Option (Nat × List Char)
  | a :: b :: c :: d :: rest =>
    match hexVal a, hexVal b, hexVal c, hexVal d with
    | some x, some y, some z, some w => some (((x * 16 + y) * 16 + z) * 16 + w, rest)
    | _, _, _, _ => none
  | _ => none

/-- Parse the body of a JSON string after the opening quote, up to and past the
closing quote.  Strict mode: unescaped control characters are an error.
Surrogate pairs in `\u` escapes are combined; a lone surrogate (representable
in a Python `str` but not in a Lean `String`) is modelled as `U+0000`. -/
def parseStringBody (cs : List Char) : Option (String × List Char) :=
  go (cs.length + 1) [] cs
where
  /-- Fuel-bounded scan; each step consumes at least one input character, so
  `length + 1` fuel always suffices. -/
  go : Nat → List Char → List Char → Option (String × List Char)
    | 0, _, _ => none
    | Nat.succ fuel, acc, input =>
      match input with
      | '"' :: rest => some (String.mk acc.reverse, rest)
      | '\\' :: esc :: rest =>
        match esc with
        | '"' => go fuel ('"' :: acc) rest
        | '\\' => go fuel ('\\' :: acc) rest
        | '/' => go fuel ('/' :: acc) rest
        | 'b' => go fuel (Char.ofNat 8 :: acc) rest
        | 'f' => go fuel (Char.ofNat 12 :: acc) rest
        | 'n' => go fuel ('\n' :: acc) rest
        | 'r' => go fuel ('\r' :: acc) rest
        | 't' => go fuel ('\t' :: acc) rest
        | 'u' =>
          match parseHex4 rest with
          | none => none
          | some (n, rest2) =>
            if 0xD800 ≤ n ∧ n ≤ 0xDBFF then
              match rest2 with
              | '\\' :: 'u' :: rest3 =>
                match parseHex4 rest3 with
                | some (lo, rest4) =>
                  if 0xDC00 ≤ lo ∧ lo ≤ 0xDFFF then
                    go fuel (Char.ofNat (0x10000 + (n - 0xD800) * 0x400 + (lo - 0xDC00)) :: acc) rest4
                  else go fuel (Char.ofNat 0 :: Char.ofNat 0 :: acc) rest4
                | none => none
              | _ => go fuel (Char.ofNat 0 :: acc) rest2
            else if 0xDC00 ≤ n ∧ n ≤ 0xDFFF then
              go fuel (Char.ofNat 0 :: acc) rest2
            else
              go fuel (Char.ofNat n :: acc) rest2
        | _ => none
      | c :: rest => if c.toNat < 0x20 then none else go fuel (c :: acc) rest
      | [] => none

mutual

/-- Recursive-descent JSON value, fuel-bounded for termination. -/
def parseValue : Nat → List Char → Option (JValue × List Char)
  | 0, _ => none
  | Nat.succ fuel, cs =>
    match skipWs cs with
    | 'n' :: 'u' :: 'l' :: 'l' :: rest => some (.null, rest)
    | 't' :: 'r' :: 'u' :: 'e' :: rest => some (.bool true, rest)
    | 'f' :: 'a' :: 'l' :: 's' :: 'e' :: rest => some (.bool false, rest)
    | 'N' :: 'a' :: 'N' :: rest => some (.nan, rest)
    | 'I' :: 'n' :: 'f' :: 'i' :: 'n' :: 'i' :: 't' :: 'y' :: rest => some (.inf false, rest)
    | '-' :: 'I' :: 'n' :: 'f' :: 'i' :: 'n' :: 'i' :: 't' :: 'y' :: rest => some (.inf true, rest)
    | '"' :: rest =>
      match parseStringBody rest with
      | some (s, r) => some (.str s, r)
      | none => none
    | '[' :: rest =>
      match skipWs rest with
      | ']' :: r => some (.arr [], r)
      | cs' => parseArrayItems fuel cs' []
    | '\x7b' :: rest =>
      match skipWs rest with
      | '\x7d' :: r => some (.obj [], r)
      | cs' => parseObjItems fuel cs' []
    | c :: rest =>
      if c = '-' ∨ c.isDigit then parseNumber (c :: rest) else none
    | [] => none

/-- Comma-separated array elements, after at least one element is pending. -/
def parseArrayItems : Nat → List Char → List JValue → Option (JValue × List Char)
  | 0, _, _ => none
  | Nat.succ fuel, cs, acc =>
    match parseValue fuel cs with
    | none => none
    | some (v, rest) =>
      match skipWs rest with
      | ',' :: r2 => parseArrayItems fuel r2 (v :: acc)
      | ']' :: r2 => some (.arr (v :: acc).reverse, r2)
      | _ => none

/-- Comma-separated object members, after at least one member is pending.
Python deduplicates repeated keys (last wins); we keep the member list, which
is enough for the adapter, whose only use of objects is type classification. -/
def parseObjItems : Nat → List Char → List (String × JValue) → Option (JValue × List Char)
  | 0, _, _ => none
  | Nat.succ fuel, cs, acc =>
    match skipWs cs with
    | '"' :: r =>
      match parseStringBody r with
      | none => none
      | some (k, r2) =>
        match skipWs r2 with
        | ':' :: r3 =>
          match parseValue fuel r3 with
          | none => none
          | some (v, r4) =>
            match skipWs r4 with
            | ',' :: r5 => parseObjItems fuel r5 ((k, v) :: acc)
            | '\x7d' :: r5 => some (.obj ((k, v) :: acc).reverse, r5)
            | _ => none
        | _ => none
    | _ => none

end

/-- Model of Python `json.loads`: parse one JSON value and require only
whitespace to follow; otherwise raise `json.JSONDecodeError` (modelled as
`.error` with an abstract message). The fuel bound exceeds any possible
nesting depth of the input. -/
def json_loads (s : String) : Except String JValue :=
  match parseValue (4 * (s.length + 1)) s.data with
  | some (v, rest) =>
    if skipWs rest = [] then .ok v else .error "Extra data"
  | none => .error "Expecting value"

/-- Drop trailing `'0'` characters. -/
def stripTrailingZeros (ds : List Char) : List Char :=
  (ds.reverse.dropWhile (fun c => c = '0')).reverse

/-- Decimal rendering of the float value `m * 10 ^ e`, in the style of Python
`str` on a float (`"2.5"`, `"100.0"`, trailing zeros of the fraction removed,
`".0"` appended when integral).  Exact decimal, see the module docstring. -/
def floatDecStr (m : Int) (e : Int) : String :=
  if m = 0 then "0.0"
  else if 0 ≤ e then
    toString (m * (10 : Int) ^ e.toNat) ++ ".0"
  else
    let k := (-e).toNat
    let ds := (toString m.natAbs).data
    let ds' := if ds.length ≤ k then List.replicate (k + 1 - ds.length) '0' ++ ds else ds
    let ipart := ds'.take (ds'.length - k)
    let fpart := stripTrailingZeros (ds'.drop (ds'.length - k))
    let sign := if m < 0 then "-" else ""
    if fpart = [] then sign ++ String.mk ipart ++ ".0"
    else sign ++ String.mk ipart ++ "." ++ String.mk fpart

mutual

/-- Python `repr()` on JSON-decoded values (escaping of quotes and special
characters inside string reprs is not modelled; the adapter never reprs a
string containing them in any claim). -/
def pyRepr : JValue → String
  | .null => "None"
  | .bool true => "True"
  | .bool false => "False"
  | .int n => toString n
  | .float m e => floatDecStr m e
  | .nan => "nan"
  | .inf false => "inf"
  | .inf true => "-inf"
  | .str s => "\x27" ++ s ++ "\x27"
  | .arr xs => "[" ++ String.intercalate ", " (pyReprList xs) ++ "]"
  | .obj kvs => "\x7b" ++ String.intercalate ", " (pyObjMembers kvs) ++ "\x7d"

/-- Python repr of each element of a Python list. -/
def pyReprList : List JValue → List String
  | [] => []
  | v :: vs => pyRepr v :: pyReprList vs

/-- Rendering of dict members as key-colon-repr pairs. -/
def pyObjMembers : List (String × JValue) → List String
  | [] => []
  | (k, v) :: kvs => ("\x27" ++ k ++ "\x27: " ++ pyRepr v) :: pyObjMembers kvs

end

/-- Python `str()` on JSON-decoded values: identity on strings, `repr`-like
otherwise (`str(None) = "None"`, `str(True) = "True"`, numbers in decimal,
containers via `repr` of their elements). -/
def pyStr (v : JValue) : String :=
  match v with
  | .str s => s
  | _ => pyRepr v

/-- Test for `cell is None`. -/
def isNull : JValue → Bool
  | .null => true
  | _ => false

/-- Test for `isinstance(v, list)`. -/
def isList : JValue → Bool
  | .arr _ => true
  | _ => false

/-- Python `type(v)` rendered as in an f-string, e.g. `<class 'list'>`. -/
def pyTypeName : JValue → String
  | .null => "<class \x27NoneType\x27>"
  | .bool _ => "<class \x27bool\x27>"
  | .int _ => "<class \x27int\x27>"
  | .float _ _ => "<class \x27float\x27>"
  | .nan => "<class \x27float\x27>"
  | .inf _ => "<class \x27float\x27>"
  | .str _ => "<class \x27str\x27>"
  | .arr _ => "<class \x27list\x27>"
  | .obj _ => "<class \x27dict\x27>"

/-- One row of `parse_table_data`'s loop: a list row becomes its cells with
`str(cell) if cell is not None else ""`; a non-list row becomes `[str(row)]`. -/
def rowToStrings : JValue → List String
  | .arr cells => cells.map (fun cell => if isNull cell then "" else pyStr cell)
  | v => [pyStr v]

/-- Embedding of `parse_table_data(data_str)`, the module's free function: decode JSON,
return `[]` if decoding fails or the result is not a list, otherwise convert
each row with `rowToStrings`. -/
def parse_table_data (data_str : String) : List (List String) :=
  match json_loads data_str with
  | .error _ => []
  | .ok data =>
    match data with
    | .arr rows => rows.map rowToStrings
    | _ => []

example : parse_table_data "[1,2]" = [["1"], ["2"]] := by rfl
example : parse_table_data "not json" = [] := by rfl
example : parse_table_data "[]" = [] := by rfl
example : parse_table_data "[[\"a\", [1, \"b\"]]]" = [["a", "[1, \x27b\x27]"]] := by rfl

/-- A single invocation of a controller method, with its arguments, as recorded
in an adapter operation's trace. -/
inductive Call where
  | insertTable (rows cols : Int)
  | fillTableCell (row col : Int) (text : String)
  | mergeTableCells (start_row start_col end_row end_col : Int)
  | getTableCellText (row col : Int)
  | fillTableWithData (data : List (List String)) (start_row start_col : Int) (has_header : Bool)
  | runAction (action : String)
deriving Repr, DecidableEq

/-- The externally-owned controller, as consumed by the adapter (spec §6).
`.error e` models the method raising an exception with `str(e) = e`;
`.ok b` / `.ok s` models a normal return. -/
structure HwpController where
  insert_table : Int → Int → Except String Bool
  fill_table_cell : Int → Int → String → Except String Bool
  merge_table_cells : Int → Int → Int → Int → Except String Bool
  get_table_cell_text : Int → Int → Except String String
  fill_table_with_data : List (List String) → Int → Int → Bool → Except String Bool
  run_action : String → Except String Bool

namespace HwpTableTools

/-- Embedding of `HwpTableTools.insert_table` (source lines 37-59). -/
def insert_table (ctrl : Option HwpController) (rows cols : Int) : String × List Call :=
  match ctrl with
  | none => ("Error: HWP Controller is not set", [])
  | some c =>
    match c.insert_table rows cols with
    | .ok true =>
      ("Table inserted with " ++ toString rows ++ " rows and " ++ toString cols ++ " columns",
       [.insertTable rows cols])
    | .ok false => ("Error: Failed to insert table", [.insertTable rows cols])
    | .error e => ("Error: " ++ e, [.insertTable rows cols])

/-- Embedding of `HwpTableTools.set_cell_text` (source lines 61-85). -/
def set_cell_text (ctrl : Option HwpController) (row col : Int) (text : String) :
    String × List Call :=
  match ctrl with
  | none => ("Error: HWP Controller is not set", [])
  | some c =>
    match c.fill_table_cell row col text with
    | .ok true =>
      ("셀(" ++ toString row ++ ", " ++ toString col ++ ")에 텍스트 입력 완료",
       [.fillTableCell row col text])
    | .ok false =>
      ("셀(" ++ toString row ++ ", " ++ toString col ++ ")에 텍스트 입력 실패",
       [.fillTableCell row col text])
    | .error e => ("Error: " ++ e, [.fillTableCell row col text])

/-- Embedding of `HwpTableTools.merge_cells` (source lines 87-112). -/
def merge_cells (ctrl : Option HwpController) (start_row start_col end_row end_col : Int) :
    String × List Call :=
  match ctrl with
  | none => ("Error: HWP Controller is not set", [])
  | some c =>
    match c.merge_table_cells start_row start_col end_row end_col with
    | .ok true =>
      ("셀 병합 완료 (" ++ toString start_row ++ "," ++ toString start_col ++ ") - (" ++
         toString end_row ++ "," ++ toString end_col ++ ")",
       [.mergeTableCells start_row start_col end_row end_col])
    | .ok false => ("셀 병합 실패", [.mergeTableCells start_row start_col end_row end_col])
    | .error e => ("Error: " ++ e, [.mergeTableCells start_row start_col end_row end_col])

/-- Embedding of `HwpTableTools.get_cell_text` (source lines 114-135): the controller's
string is returned unmodified on success. -/
def get_cell_text (ctrl : Option HwpController) (row col : Int) : String × List Call :=
  match ctrl with
  | none => ("Error: HWP Controller is not set", [])
  | some c =>
    match c.get_table_cell_text row col with
    | .ok text => (text, [.getTableCellText row col])
    | .error e => ("Error: " ++ e, [.getTableCellText row col])

/-- Translation of the bulk-fill outcome inside `create_table_with_data`
(source lines 183-193): success, boolean failure, or caught exception. -/
def createFillOutcome (rows cols : Int) (str_data_array : List (List String))
    (has_header : Bool) (r : Except String Bool) : String × List Call :=
  match r with
  | .ok true =>
    ("표 생성 및 데이터 입력 완료 (" ++ toString rows ++ "x" ++ toString cols ++ " 크기)",
     [.insertTable rows cols, .fillTableWithData str_data_array 1 1 has_header])
  | .ok false =>
    ("표는 생성되었으나 데이터 입력에 실패했습니다.",
     [.insertTable rows cols, .fillTableWithData str_data_array 1 1 has_header])
  | .error e =>
    ("표는 생성되었으나 데이터 입력 중 오류 발생: " ++ e,
     [.insertTable rows cols, .fillTableWithData str_data_array 1 1 has_header])

/-- Data phase of `create_table_with_data` after JSON decoding succeeds
(source lines 167-186): shape validation, `str()` conversion of every cell,
and the bulk `fill_table_with_data` controller call. -/
def createDataPhase (c : HwpController) (rows cols : Int) (has_header : Bool) :
    JValue → String × List Call
  | .arr data_rows =>
    if data_rows.isEmpty then
      ("표는 생성되었으나 데이터 리스트가 비어 있습니다.", [.insertTable rows cols])
    else if data_rows.all isList then
      let str_data_array :=
        data_rows.map (fun r => match r with | JValue.arr cells => cells.map pyStr | _ => [])
      createFillOutcome rows cols str_data_array has_header
        (c.fill_table_with_data str_data_array 1 1 has_header)
    else
      ("표는 생성되었으나 데이터가 2차원 배열 형식이 아닙니다.", [.insertTable rows cols])
  | v =>
    ("표는 생성되었으나 데이터가 리스트 형식이 아닙니다. 받은 데이터 타입: " ++ pyTypeName v,
     [.insertTable rows cols])

/-- Embedding of `HwpTableTools.create_table_with_data` (source lines 137-198).
`data` is optional with Python default `None`; `if data:` is falsy for both
`None` and the empty string. -/
def create_table_with_data (ctrl : Option HwpController) (rows cols : Int)
    (data : Option String) (has_header : Bool) : String × List Call :=
  match ctrl with
  | none => ("Error: HWP Controller is not set", [])
  | some c =>
    match c.insert_table rows cols with
    | .error e => ("Error: " ++ e, [.insertTable rows cols])
    | .ok false => ("Error: Failed to create table", [.insertTable rows cols])
    | .ok true =>
      match data with
      | none => ("표 생성 완료 (" ++ toString rows ++ "x" ++ toString cols ++ " 크기)",
                 [.insertTable rows cols])
      | some ds =>
        if ds.isEmpty then
          ("표 생성 완료 (" ++ toString rows ++ "x" ++ toString cols ++ " 크기)",
           [.insertTable rows cols])
        else
          match json_loads ds with
          | .error e =>
            ("표는 생성되었으나 JSON 데이터 파싱 오류: " ++ e, [.insertTable rows cols])
          | .ok data_array => createDataPhase c rows cols has_header data_array

/-- One row of `fill_table_with_data`'s processing loop (source lines 225-230):
a non-list row is replaced by `[str(row)]`; in a list row each cell becomes
`str(cell) if cell is not None else ""`. -/
def processDataRow : JValue → List String
  | .arr cells => cells.map (fun cell => if isNull cell then "" else pyStr cell)
  | v => [pyStr v]

/-- Embedding of `HwpTableTools.fill_table_with_data` (source lines 200-243). The rows of
`data_list` are arbitrary Python values (the code tolerates non-list rows and
`None` cells), so they are modelled as `JValue`s. -/
def fill_table_with_data (ctrl : Option HwpController) (data_list : List JValue)
    (start_row start_col : Int) (has_header : Bool) : String × List Call :=
  match ctrl with
  | none => ("Error: HWP Controller is not set", [])
  | some c =>
    if data_list.isEmpty then ("Error: Data is required", [])
    else
      let processed_data := data_list.map processDataRow
      match c.fill_table_with_data processed_data start_row start_col has_header with
      | .ok true =>
        ("표 데이터 입력 완료", [.fillTableWithData processed_data start_row start_col has_header])
      | .ok false =>
        ("표 데이터 입력 실패", [.fillTableWithData processed_data start_row start_col has_header])
      | .error e =>
        ("Error: " ++ e, [.fillTableWithData processed_data start_row start_col has_header])

/-- Embedding of `HwpTableTools.insert_left_column` (source lines 246-265). -/
def insert_left_column (ctrl : Option HwpController) : String × List Call :=
  match ctrl with
  | none => ("Error: HWP Controller is not set", [])
  | some c =>
    match c.run_action "TableInsertLeftColumn" with
    | .ok true => ("왼쪽 칼럼 삽입 완료", [.runAction "TableInsertLeftColumn"])
    | .ok false => ("왼쪽 칼럼 삽입 실패", [.runAction "TableInsertLeftColumn"])
    | .error e => ("Error: " ++ e, [.runAction "TableInsertLeftColumn"])

/-- Embedding of `HwpTableTools.insert_right_column` (source lines 267-286). -/
def insert_right_column (ctrl : Option HwpController) : String × List Call :=
  match ctrl with
  | none => ("Error: HWP Controller is not set", [])
  | some c =>
    match c.run_action "TableInsertRightColumn" with
    | .ok true => ("오른쪽 칼럼 삽입 완료", [.runAction "TableInsertRightColumn"])
    | .ok false => ("오른쪽 칼럼 삽입 실패", [.runAction "TableInsertRightColumn"])
    | .error e => ("Error: " ++ e, [.runAction "TableInsertRightColumn"])

/-- Embedding of `HwpTableTools.insert_upper_row` (source lines 289-308). -/
def insert_upper_row (ctrl : Option HwpController) : String × List Call :=
  match ctrl with
  | none => ("Error: HWP Controller is not set", [])
  | some c =>
    match c.run_action "TableInsertUpperRow" with
    | .ok true => ("위쪽 행 삽입 완료", [.runAction "TableInsertUpperRow"])
    | .ok false => ("위쪽 행 삽입 실패", [.runAction "TableInsertUpperRow"])
    | .error e => ("Error: " ++ e, [.runAction "TableInsertUpperRow"])

/-- Embedding of `HwpTableTools.insert_lower_row` (source lines 310-329). -/
def insert_lower_row (ctrl : Option HwpController) : String × List Call :=
  match ctrl with
  | none => ("Error: HWP Controller is not set", [])
  | some c =>
    match c.run_action "TableInsertLowerRow" with
    | .ok true => ("아래쪽 행 삽입 완료", [.runAction "TableInsertLowerRow"])
    | .ok false => ("아래쪽 행 삽입 실패", [.runAction "TableInsertLowerRow"])
    | .error e => ("Error: " ++ e, [.runAction "TableInsertLowerRow"])

/-- Embedding of `HwpTableTools.move_to_left_cell` (source lines 332-351). -/
def move_to_left_cell (ctrl : Option HwpController) : String × List Call :=
  match ctrl with
  | none => ("Error: HWP Controller is not set", [])
  | some c =>
    match c.run_action "TableLeftCell" with
    | .ok true => ("왼쪽 셀로 이동 완료", [.runAction "TableLeftCell"])
    | .ok false => ("왼쪽 셀로 이동 실패", [.runAction "TableLeftCell"])
    | .error e => ("Error: " ++ e, [.runAction "TableLeftCell"])

/-- Embedding of `HwpTableTools.move_to_right_cell` (source lines 353-372). -/
def move_to_right_cell (ctrl : Option HwpController) : String × List Call :=
  match ctrl with
  | none => ("Error: HWP Controller is not set", [])
  | some c =>
    match c.run_action "TableRightCell" with
    | .ok true => ("오른쪽 셀로 이동 완료", [.runAction "TableRightCell"])
    | .ok false => ("오른쪽 셀로 이동 실패", [.runAction "TableRightCell"])
    | .error e => ("Error: " ++ e, [.runAction "TableRightCell"])

/-- Embedding of `HwpTableTools.move_to_upper_cell` (source lines 374-393). -/
def move_to_upper_cell (ctrl : Option HwpController) : String × List Call :=
  match ctrl with
  | none => ("Error: HWP Controller is not set", [])
  | some c =>
    match c.run_action "TableUpperCell" with
    | .ok true => ("위쪽 셀로 이동 완료", [.runAction "TableUpperCell"])
    | .ok false => ("위쪽 셀로 이동 실패", [.runAction "TableUpperCell"])
    | .error e => ("Error: " ++ e, [.runAction "TableUpperCell"])

/-- Embedding of `HwpTableTools.move_to_lower_cell` (source lines 395-414). -/
def move_to_lower_cell (ctrl : Option HwpController) : String × List Call :=
  match ctrl with
  | none => ("Error: HWP Controller is not set", [])
  | some c =>
    match c.run_action "TableLowerCell" with
    | .ok true => ("아래쪽 셀로 이동 완료", [.runAction "TableLowerCell"])
    | .ok false => ("아래쪽 셀로 이동 실패", [.runAction "TableLowerCell"])
    | .error e => ("Error: " ++ e, [.runAction "TableLowerCell"])

/-- Embedding of `HwpTableTools.merge_tables` (source lines 555-574). -/
def merge_tables (ctrl : Option HwpController) : String × List Call :=
  match ctrl with
  | none => ("Error: HWP Controller is not set", [])
  | some c =>
    match c.run_action "TableMergeTable" with
    | .ok true => ("표 병합 완료", [.runAction "TableMergeTable"])
    | .ok false => ("표 병합 실패", [.runAction "TableMergeTable"])
    | .error e => ("Error: " ++ e, [.runAction "TableMergeTable"])

end HwpTableTools

/-- Test controller: every method succeeds (`True` / a fixed cell text). -/
def okTrueCtrl : HwpController where
  insert_table := fun _ _ => .ok true
  fill_table_cell := fun _ _ _ => .ok true
  merge_table_cells := fun _ _ _ _ => .ok true
  get_table_cell_text := fun _ _ => .ok "cell"
  fill_table_with_data := fun _ _ _ _ => .ok true
  run_action := fun _ => .ok true

/-- Test controller: every boolean method returns `False`. -/
def okFalseCtrl : HwpController where
  insert_table := fun _ _ => .ok false
  fill_table_cell := fun _ _ _ => .ok false
  merge_table_cells := fun _ _ _ _ => .ok false
  get_table_cell_text := fun _ _ => .ok "cell"
  fill_table_with_data := fun _ _ _ _ => .ok false
  run_action := fun _ => .ok false

/-- Test controller: every method raises an exception with message `e`. -/
def raiseCtrl (e : String) : HwpController where
  insert_table := fun _ _ => .error e
  fill_table_cell := fun _ _ _ => .error e
  merge_table_cells := fun _ _ _ _ => .error e
  get_table_cell_text := fun _ _ => .error e
  fill_table_with_data := fun _ _ _ _ => .error e
  run_action := fun _ => .error e

/-- Test controller: table insertion succeeds but the bulk data fill raises. -/
def fillRaisesCtrl (e : String) : HwpController :=
  { okTrueCtrl with fill_table_with_data := fun _ _ _ _ => .error e }

/-- Test controller: reading any cell returns the fixed text `t`. -/
def textCtrl (t : String) : HwpController :=
  { okTrueCtrl with get_table_cell_text := fun _ _ => .ok t }

/-- Whether `p` is a prefix of `s`, character-wise. -/
def strStarts (p s : String) : Bool :=
  p.data.isPrefixOf s.data

/-- Definitional unfolding of `create_table_with_data` on a present controller
and a present data string, exposing the match on the insertion result. -/
theorem create_unfold (c : HwpController) (rows cols : Int) (ds : String) (hh : Bool) :
    HwpTableTools.create_table_with_data (some c) rows cols (some ds) hh =
      (match c.insert_table rows cols with
       | .error e => ("Error: " ++ e, [Call.insertTable rows cols])
       | .ok false => ("Error: Failed to create table", [Call.insertTable rows cols])
       | .ok true =>
         if ds.isEmpty then
           ("\ud45c \uc0dd\uc131 \uc644\ub8cc (" ++ toString rows ++ "x" ++ toString cols ++ " \ud06c\uae30)",
            [Call.insertTable rows cols])
         else
           match json_loads ds with
           | .error e => ("\ud45c\ub294 \uc0dd\uc131\ub418\uc5c8\uc73c\ub098 JSON \ub370\uc774\ud130 \ud30c\uc2f1 \uc624\ub958: " ++ e, [Call.insertTable rows cols])
           | .ok data_array => HwpTableTools.createDataPhase c rows cols hh data_array) := rfl

/-- Evaluation lemma: once the table insertion inside `create_table_with_data`
succeeds and the data string is non-empty, the result is the data phase of the
decoded JSON (or the parse-error message). -/
theorem create_eval (c : HwpController) (rows cols : Int) (ds : String) (hh : Bool)
    (h : c.insert_table rows cols = Except.ok true) (hne : ds.isEmpty = false) :
    HwpTableTools.create_table_with_data (some c) rows cols (some ds) hh =
      (match json_loads ds with
       | .error e => ("\ud45c\ub294 \uc0dd\uc131\ub418\uc5c8\uc73c\ub098 JSON \ub370\uc774\ud130 \ud30c\uc2f1 \uc624\ub958: " ++ e, [Call.insertTable rows cols])
       | .ok data_array => HwpTableTools.createDataPhase c rows cols hh data_array) := by
  rw [create_unfold, h, hne]
  rfl

/-- Evaluation lemma: successful insertion, non-empty data, decode success. -/
theorem create_eval_ok (c : HwpController) (rows cols : Int) (ds : String) (hh : Bool)
    (v : JValue) (h : c.insert_table rows cols = Except.ok true) (hne : ds.isEmpty = false)
    (hj : json_loads ds = Except.ok v) :
    HwpTableTools.create_table_with_data (some c) rows cols (some ds) hh =
      HwpTableTools.createDataPhase c rows cols hh v := by
  rw [create_eval c rows cols ds hh h hne, hj]

/-- C3: every public operation of `HwpTableTools`, called with no controller
set, returns the error string `"Error: HWP Controller is not set"` (which
contains `"not set"`), performs no controller call (empty trace), and — being a
total function into `String × List Call` — raises no exception. -/
theorem claim_C3_missing_controller (rows cols start_row start_col end_row end_col row col : Int)
    (text : String) (data : Option String) (data_list : List JValue) (has_header : Bool) :
    HwpTableTools.insert_table none rows cols = ("Error: HWP Controller is not set", []) ∧
    HwpTableTools.set_cell_text none row col text = ("Error: HWP Controller is not set", []) ∧
    HwpTableTools.merge_cells none start_row start_col end_row end_col
      = ("Error: HWP Controller is not set", []) ∧
    HwpTableTools.get_cell_text none row col = ("Error: HWP Controller is not set", []) ∧
    HwpTableTools.create_table_with_data none rows cols data has_header
      = ("Error: HWP Controller is not set", []) ∧
    HwpTableTools.fill_table_with_data none data_list start_row start_col has_header
      = ("Error: HWP Controller is not set", []) ∧
    HwpTableTools.insert_left_column none = ("Error: HWP Controller is not set", []) ∧
    HwpTableTools.insert_right_column none = ("Error: HWP Controller is not set", []) ∧
    HwpTableTools.insert_upper_row none = ("Error: HWP Controller is not set", []) ∧
    HwpTableTools.insert_lower_row none = ("Error: HWP Controller is not set", []) ∧
    HwpTableTools.move_to_left_cell none = ("Error: HWP Controller is not set", []) ∧
    HwpTableTools.move_to_right_cell none = ("Error: HWP Controller is not set", []) ∧
    HwpTableTools.move_to_upper_cell none = ("Error: HWP Controller is not set", []) ∧
    HwpTableTools.move_to_lower_cell none = ("Error: HWP Controller is not set", []) ∧
    HwpTableTools.merge_tables none = ("Error: HWP Controller is not set", []) ∧
    "Error: HWP Controller is not set" = "Error: HWP Controller is " ++ "not set" ++ "" :=
  ⟨rfl, rfl, rfl, rfl, rfl, rfl, rfl, rfl, rfl, rfl, rfl, rfl, rfl, rfl, rfl, rfl⟩

/-- C7: `parse_table_data` on `'[["a","b"],["c","d"]]'` yields exactly two
rows of two string cells, `["a","b"]` and `["c","d"]`. -/
theorem claim_C7_two_by_two :
    parse_table_data "[[\"a\",\"b\"],[\"c\",\"d\"]]" = [["a", "b"], ["c", "d"]] := rfl

/-- C9: whenever the controller's `get_table_cell_text` returns a string `s`
without raising, `get_cell_text` returns exactly `s`, unmodified — including
when `s` itself begins with `"Error:"`, making a successful read of such a cell
indistinguishable from a failure result (second conjunct: a controller whose
cell text is `"Error: boom"` and a controller raising `boom` produce the same
adapter output). -/
theorem claim_C9_get_cell_text_verbatim :
    (∀ (c : HwpController) (row col : Int) (s : String),
       c.get_table_cell_text row col = Except.ok s →
       (HwpTableTools.get_cell_text (some c) row col).1 = s) ∧
    (HwpTableTools.get_cell_text (some (textCtrl "Error: boom")) 1 1).1
      = (HwpTableTools.get_cell_text (some (raiseCtrl "boom")) 1 1).1 := by
  constructor
  · intro c row col s h
    simp [HwpTableTools.get_cell_text, h]
  · rfl

/-- Witness for C9 at a concrete input: a cell whose stored text is
`"Error: boom"` is returned verbatim. -/
theorem claim_C9_witness :
    (HwpTableTools.get_cell_text (some (textCtrl "Error: boom")) 1 1).1 = "Error: boom" :=
  claim_C9_get_cell_text_verbatim.1 (textCtrl "Error: boom") 1 1 "Error: boom" rfl

/-- C10: `fill_table_with_data` with an empty data list returns
`"Error: Data is required"` and invokes no controller method, even though a
controller is set. -/
theorem claim_C10_empty_data (c : HwpController) (start_row start_col : Int) (has_header : Bool) :
    HwpTableTools.fill_table_with_data (some c) [] start_row start_col has_header
      = ("Error: Data is required", []) := rfl

/-- Counterexample to C2 as stated: `'[1,2]'` is a JSON list containing rows
that are not lists, so the claim demands an empty result, but
`parse_table_data` wraps each non-list row as a single-string row and returns
a non-empty sequence. -/
theorem claim_C2_counterexample :
    parse_table_data "[1,2]" = [["1"], ["2"]] ∧ parse_table_data "[1,2]" ≠ [] := by
  constructor
  · rfl
  · decide

/-- C2 (amended): `parse_table_data` returns the empty sequence exactly when
the input is malformed JSON, decodes to a non-list, or decodes to the empty
list; whenever the input decodes to a list, each row is converted by
`rowToStrings` (list rows cell-wise with `None ↦ ""`, non-list rows wrapped as
`[str(row)]` rather than rejected), so the result is always an ordered sequence
of ordered sequences of strings. -/
theorem claim_C2_amended (s : String) :
    (parse_table_data s = [] ↔
      (match json_loads s with
       | .error _ => True
       | .ok (.arr rows) => rows = []
       | .ok _ => True)) ∧
    (∀ rows, json_loads s = Except.ok (JValue.arr rows) →
       parse_table_data s = rows.map rowToStrings) := by
  constructor
  · unfold parse_table_data
    rcases json_loads s with e | v
    · simp
    · cases v <;> simp
  · intro rows h
    unfold parse_table_data
    rw [h]

/-- Witness for C2 (amended) at a concrete input. -/
theorem claim_C2_witness :
    parse_table_data "[[\"a\"]]" = ([JValue.arr [JValue.str "a"]]).map rowToStrings :=
  (claim_C2_amended "[[\"a\"]]").2 [JValue.arr [JValue.str "a"]] rfl

/-- C8: the three data-shaping entry points disagree on `None`/JSON-null
cells.  `parse_table_data` and `fill_table_with_data` forward the empty string
`""`, while `create_table_with_data` converts the cell with `str()` and
forwards `"None"` to the controller (visible in the traced
`fill_table_with_data` controller call). -/
theorem claim_C8_null_inconsistency :
    parse_table_data "[[null]]" = [[""]] ∧
    (∀ (c : HwpController) (start_row start_col : Int) (has_header : Bool),
       (HwpTableTools.fill_table_with_data (some c) [JValue.arr [JValue.null]]
          start_row start_col has_header).2
         = [Call.fillTableWithData [[""]] start_row start_col has_header]) ∧
    (∀ (c : HwpController) (rows cols : Int) (has_header : Bool),
       c.insert_table rows cols = Except.ok true →
       (HwpTableTools.create_table_with_data (some c) rows cols (some "[[null]]") has_header).2
         = [Call.insertTable rows cols, Call.fillTableWithData [["None"]] 1 1 has_header]) := by
  refine ⟨rfl, ?_, ?_⟩
  · intro c start_row start_col has_header
    show (match c.fill_table_with_data [[""]] start_row start_col has_header with
          | Except.ok true =>
            ("표 데이터 입력 완료", [Call.fillTableWithData [[""]] start_row start_col has_header])
          | Except.ok false =>
            ("표 데이터 입력 실패", [Call.fillTableWithData [[""]] start_row start_col has_header])
          | Except.error e =>
            ("Error: " ++ e, [Call.fillTableWithData [[""]] start_row start_col has_header])).2
        = [Call.fillTableWithData [[""]] start_row start_col has_header]
    rcases c.fill_table_with_data [[""]] start_row start_col has_header with e | b
    · rfl
    · cases b <;> rfl
  · intro c rows cols has_header h
    rw [create_eval c rows cols "[[null]]" has_header h rfl]
    show (match c.fill_table_with_data [["None"]] 1 1 has_header with
          | Except.ok true =>
            ("표 생성 및 데이터 입력 완료 (" ++ toString rows ++ "x" ++ toString cols ++ " 크기)",
             [Call.insertTable rows cols, Call.fillTableWithData [["None"]] 1 1 has_header])
          | Except.ok false =>
            ("표는 생성되었으나 데이터 입력에 실패했습니다.",
             [Call.insertTable rows cols, Call.fillTableWithData [["None"]] 1 1 has_header])
          | Except.error e =>
            ("표는 생성되었으나 데이터 입력 중 오류 발생: " ++ e,
             [Call.insertTable rows cols, Call.fillTableWithData [["None"]] 1 1 has_header])).2
        = [Call.insertTable rows cols, Call.fillTableWithData [["None"]] 1 1 has_header]
    rcases c.fill_table_with_data [["None"]] 1 1 has_header with e | b
    · rfl
    · cases b <;> rfl

/-- The data string is rejected by `create_table_with_data`'s data phase:
malformed JSON, a non-list, an empty list, or some row not a list. -/
def badData (ds : String) : Bool :=
  match json_loads ds with
  | .error _ => true
  | .ok (.arr rows) => rows.isEmpty || !(rows.all isList)
  | .ok _ => true

/-- Definitional unfolding of `insert_table` on a present controller. -/
theorem insert_table_unfold (c : HwpController) (rows cols : Int) :
    HwpTableTools.insert_table (some c) rows cols =
      (match c.insert_table rows cols with
       | Except.ok true =>
         ("Table inserted with " ++ toString rows ++ " rows and " ++ toString cols ++ " columns",
          [Call.insertTable rows cols])
       | Except.ok false => ("Error: Failed to insert table", [Call.insertTable rows cols])
       | Except.error e => ("Error: " ++ e, [Call.insertTable rows cols])) := rfl

/-- Definitional unfolding of `set_cell_text` on a present controller. -/
theorem set_cell_text_unfold (c : HwpController) (row col : Int) (text : String) :
    HwpTableTools.set_cell_text (some c) row col text =
      (match c.fill_table_cell row col text with
       | Except.ok true =>
         ("셀(" ++ toString row ++ ", " ++ toString col ++ ")에 텍스트 입력 완료",
          [Call.fillTableCell row col text])
       | Except.ok false =>
         ("셀(" ++ toString row ++ ", " ++ toString col ++ ")에 텍스트 입력 실패",
          [Call.fillTableCell row col text])
       | Except.error e => ("Error: " ++ e, [Call.fillTableCell row col text])) := rfl

/-- Definitional unfolding of `merge_cells` on a present controller. -/
theorem merge_cells_unfold (c : HwpController) (start_row start_col end_row end_col : Int) :
    HwpTableTools.merge_cells (some c) start_row start_col end_row end_col =
      (match c.merge_table_cells start_row start_col end_row end_col with
       | Except.ok true =>
         ("셀 병합 완료 (" ++ toString start_row ++ "," ++ toString start_col ++ ") - (" ++
            toString end_row ++ "," ++ toString end_col ++ ")",
          [Call.mergeTableCells start_row start_col end_row end_col])
       | Except.ok false =>
         ("셀 병합 실패", [Call.mergeTableCells start_row start_col end_row end_col])
       | Except.error e =>
         ("Error: " ++ e, [Call.mergeTableCells start_row start_col end_row end_col])) := rfl

/-- Definitional unfolding of `get_cell_text` on a present controller. -/
theorem get_cell_text_unfold (c : HwpController) (row col : Int) :
    HwpTableTools.get_cell_text (some c) row col =
      (match c.get_table_cell_text row col with
       | Except.ok text => (text, [Call.getTableCellText row col])
       | Except.error e => ("Error: " ++ e, [Call.getTableCellText row col])) := rfl

/-- Definitional unfolding of `fill_table_with_data` on a present controller. -/
theorem fill_table_unfold (c : HwpController) (data_list : List JValue)
    (start_row start_col : Int) (hh : Bool) :
    HwpTableTools.fill_table_with_data (some c) data_list start_row start_col hh =
      (if data_list.isEmpty then ("Error: Data is required", [])
       else
         match c.fill_table_with_data (data_list.map HwpTableTools.processDataRow)
             start_row start_col hh with
         | Except.ok true =>
           ("표 데이터 입력 완료",
            [Call.fillTableWithData (data_list.map HwpTableTools.processDataRow) start_row start_col hh])
         | Except.ok false =>
           ("표 데이터 입력 실패",
            [Call.fillTableWithData (data_list.map HwpTableTools.processDataRow) start_row start_col hh])
         | Except.error e =>
           ("Error: " ++ e,
            [Call.fillTableWithData (data_list.map HwpTableTools.processDataRow) start_row start_col hh])) := rfl

/-- The common result shape of the nine `run_action`-based operations. -/
def runActionResult (r : Except String Bool) (succ fail act : String) : String × List Call :=
  match r with
  | Except.ok true => (succ, [Call.runAction act])
  | Except.ok false => (fail, [Call.runAction act])
  | Except.error e => ("Error: " ++ e, [Call.runAction act])

/-- Each `run_action` operation is, definitionally, `runActionResult` of its
fixed action name and messages. -/
theorem run_ops_unfold (c : HwpController) :
    HwpTableTools.insert_left_column (some c)
      = runActionResult (c.run_action "TableInsertLeftColumn") "왼쪽 칼럼 삽입 완료" "왼쪽 칼럼 삽입 실패" "TableInsertLeftColumn" ∧
    HwpTableTools.insert_right_column (some c)
      = runActionResult (c.run_action "TableInsertRightColumn") "오른쪽 칼럼 삽입 완료" "오른쪽 칼럼 삽입 실패" "TableInsertRightColumn" ∧
    HwpTableTools.insert_upper_row (some c)
      = runActionResult (c.run_action "TableInsertUpperRow") "위쪽 행 삽입 완료" "위쪽 행 삽입 실패" "TableInsertUpperRow" ∧
    HwpTableTools.insert_lower_row (some c)
      = runActionResult (c.run_action "TableInsertLowerRow") "아래쪽 행 삽입 완료" "아래쪽 행 삽입 실패" "TableInsertLowerRow" ∧
    HwpTableTools.move_to_left_cell (some c)
      = runActionResult (c.run_action "TableLeftCell") "왼쪽 셀로 이동 완료" "왼쪽 셀로 이동 실패" "TableLeftCell" ∧
    HwpTableTools.move_to_right_cell (some c)
      = runActionResult (c.run_action "TableRightCell") "오른쪽 셀로 이동 완료" "오른쪽 셀로 이동 실패" "TableRightCell" ∧
    HwpTableTools.move_to_upper_cell (some c)
      = runActionResult (c.run_action "TableUpperCell") "위쪽 셀로 이동 완료" "위쪽 셀로 이동 실패" "TableUpperCell" ∧
    HwpTableTools.move_to_lower_cell (some c)
      = runActionResult (c.run_action "TableLowerCell") "아래쪽 셀로 이동 완료" "아래쪽 셀로 이동 실패" "TableLowerCell" ∧
    HwpTableTools.merge_tables (some c)
      = runActionResult (c.run_action "TableMergeTable") "표 병합 완료" "표 병합 실패" "TableMergeTable" :=
  ⟨rfl, rfl, rfl, rfl, rfl, rfl, rfl, rfl, rfl⟩

/-- The trace of `runActionResult` is exactly one `run_action` call. -/
theorem runActionResult_trace (r : Except String Bool) (succ fail act : String) :
    (runActionResult r succ fail act).2 = [Call.runAction act] := by
  rcases r with e | b
  · rfl
  · cases b <;> rfl

/-- The message of `runActionResult` on a boolean outcome. -/
theorem runActionResult_msg (b : Bool) (succ fail act : String) :
    (runActionResult (Except.ok b) succ fail act).1 = if b then succ else fail := by
  cases b <;> rfl

/-- The message of `runActionResult` is the success message, the failure
message, or an exception message with the `"Error: "` prefix. -/
theorem runActionResult_catalog (r : Except String Bool) (succ fail act : String) :
    (runActionResult r succ fail act).1 = succ ∨ (runActionResult r succ fail act).1 = fail ∨
      ∃ e, (runActionResult r succ fail act).1 = "Error: " ++ e := by
  rcases r with e | b
  · exact Or.inr (Or.inr ⟨e, rfl⟩)
  · cases b
    · exact Or.inr (Or.inl rfl)
    · exact Or.inl rfl

/-- C5: when the table insertion inside `create_table_with_data` succeeds but
the supplied data string is malformed JSON or fails the shape checks, the only
controller call ever made is the single `insert_table` (no compensating or
retrying call), and the returned string reports that the table was created but
the data step failed (it extends `"표는 생성되었으나"`, "the table was created
but ..."). -/
theorem claim_C5_no_compensation (c : HwpController) (rows cols : Int) (ds : String) (hh : Bool)
    (hins : c.insert_table rows cols = Except.ok true)
    (hne : ds.isEmpty = false)
    (hbad : badData ds = true) :
    (HwpTableTools.create_table_with_data (some c) rows cols (some ds) hh).2
        = [Call.insertTable rows cols] ∧
    ∃ t, (HwpTableTools.create_table_with_data (some c) rows cols (some ds) hh).1
        = "표는 생성되었으나" ++ t := by
  rw [create_eval c rows cols ds hh hins hne]
  unfold badData at hbad
  rcases hj : json_loads ds with e | v
  · exact ⟨rfl, ⟨" JSON 데이터 파싱 오류: " ++ e, rfl⟩⟩
  · rw [hj] at hbad
    cases v with
    | arr data_rows =>
      have hbad2 : (data_rows.isEmpty || !(data_rows.all isList)) = true := hbad
      cases hre : data_rows.isEmpty with
      | true =>
        simp only [HwpTableTools.createDataPhase]
        rw [hre]
        exact ⟨rfl, ⟨" 데이터 리스트가 비어 있습니다.", rfl⟩⟩
      | false =>
        have hall : data_rows.all isList = false := by
          rw [hre] at hbad2
          simpa using hbad2
        simp only [HwpTableTools.createDataPhase]
        rw [hre, hall]
        exact ⟨rfl, ⟨" 데이터가 2차원 배열 형식이 아닙니다.", rfl⟩⟩
    | null => exact ⟨rfl, ⟨" 데이터가 리스트 형식이 아닙니다. 받은 데이터 타입: " ++ pyTypeName JValue.null, rfl⟩⟩
    | bool b => exact ⟨rfl, ⟨" 데이터가 리스트 형식이 아닙니다. 받은 데이터 타입: " ++ pyTypeName (JValue.bool b), rfl⟩⟩
    | int n => exact ⟨rfl, ⟨" 데이터가 리스트 형식이 아닙니다. 받은 데이터 타입: " ++ pyTypeName (JValue.int n), rfl⟩⟩
    | float m e => exact ⟨rfl, ⟨" 데이터가 리스트 형식이 아닙니다. 받은 데이터 타입: " ++ pyTypeName (JValue.float m e), rfl⟩⟩
    | nan => exact ⟨rfl, ⟨" 데이터가 리스트 형식이 아닙니다. 받은 데이터 타입: " ++ pyTypeName JValue.nan, rfl⟩⟩
    | inf neg => exact ⟨rfl, ⟨" 데이터가 리스트 형식이 아닙니다. 받은 데이터 타입: " ++ pyTypeName (JValue.inf neg), rfl⟩⟩
    | str s => exact ⟨rfl, ⟨" 데이터가 리스트 형식이 아닙니다. 받은 데이터 타입: " ++ pyTypeName (JValue.str s), rfl⟩⟩
    | obj kvs => exact ⟨rfl, ⟨" 데이터가 리스트 형식이 아닙니다. 받은 데이터 타입: " ++ pyTypeName (JValue.obj kvs), rfl⟩⟩

/-- Witness for C5: a succeeding controller and the non-2D data `'[1]'`. -/
theorem claim_C5_witness :
    (HwpTableTools.create_table_with_data (some okTrueCtrl) 2 2 (some "[1]") false).2
        = [Call.insertTable 2 2] ∧
    ∃ t, (HwpTableTools.create_table_with_data (some okTrueCtrl) 2 2 (some "[1]") false).1
        = "표는 생성되었으나" ++ t :=
  claim_C5_no_compensation okTrueCtrl 2 2 "[1]" false rfl rfl rfl

/-- C6: each row/column insertion, cell navigation, and table-merge operation,
called with a controller set, invokes `run_action` exactly once with its fixed
action name (the trace is that single call, in every outcome including an
exception), and — when `run_action` returns a boolean — returns its success
message if and only if the boolean is true, its distinct failure message
otherwise. -/
theorem claim_C6_run_action_ops (c : HwpController) :
    ((HwpTableTools.insert_left_column (some c)).2 = [Call.runAction "TableInsertLeftColumn"] ∧
     (∀ b, c.run_action "TableInsertLeftColumn" = Except.ok b →
        (HwpTableTools.insert_left_column (some c)).1 = if b then "왼쪽 칼럼 삽입 완료" else "왼쪽 칼럼 삽입 실패") ∧
     ("왼쪽 칼럼 삽입 완료" : String) ≠ "왼쪽 칼럼 삽입 실패") ∧
    ((HwpTableTools.insert_right_column (some c)).2 = [Call.runAction "TableInsertRightColumn"] ∧
     (∀ b, c.run_action "TableInsertRightColumn" = Except.ok b →
        (HwpTableTools.insert_right_column (some c)).1 = if b then "오른쪽 칼럼 삽입 완료" else "오른쪽 칼럼 삽입 실패") ∧
     ("오른쪽 칼럼 삽입 완료" : String) ≠ "오른쪽 칼럼 삽입 실패") ∧
    ((HwpTableTools.insert_upper_row (some c)).2 = [Call.runAction "TableInsertUpperRow"] ∧
     (∀ b, c.run_action "TableInsertUpperRow" = Except.ok b →
        (HwpTableTools.insert_upper_row (some c)).1 = if b then "위쪽 행 삽입 완료" else "위쪽 행 삽입 실패") ∧
     ("위쪽 행 삽입 완료" : String) ≠ "위쪽 행 삽입 실패") ∧
    ((HwpTableTools.insert_lower_row (some c)).2 = [Call.runAction "TableInsertLowerRow"] ∧
     (∀ b, c.run_action "TableInsertLowerRow" = Except.ok b →
        (HwpTableTools.insert_lower_row (some c)).1 = if b then "아래쪽 행 삽입 완료" else "아래쪽 행 삽입 실패") ∧
     ("아래쪽 행 삽입 완료" : String) ≠ "아래쪽 행 삽입 실패") ∧
    ((HwpTableTools.move_to_left_cell (some c)).2 = [Call.runAction "TableLeftCell"] ∧
     (∀ b, c.run_action "TableLeftCell" = Except.ok b →
        (HwpTableTools.move_to_left_cell (some c)).1 = if b then "왼쪽 셀로 이동 완료" else "왼쪽 셀로 이동 실패") ∧
     ("왼쪽 셀로 이동 완료" : String) ≠ "왼쪽 셀로 이동 실패") ∧
    ((HwpTableTools.move_to_right_cell (some c)).2 = [Call.runAction "TableRightCell"] ∧
     (∀ b, c.run_action "TableRightCell" = Except.ok b →
        (HwpTableTools.move_to_right_cell (some c)).1 = if b then "오른쪽 셀로 이동 완료" else "오른쪽 셀로 이동 실패") ∧
     ("오른쪽 셀로 이동 완료" : String) ≠ "오른쪽 셀로 이동 실패") ∧
    ((HwpTableTools.move_to_upper_cell (some c)).2 = [Call.runAction "TableUpperCell"] ∧
     (∀ b, c.run_action "TableUpperCell" = Except.ok b →
        (HwpTableTools.move_to_upper_cell (some c)).1 = if b then "위쪽 셀로 이동 완료" else "위쪽 셀로 이동 실패") ∧
     ("위쪽 셀로 이동 완료" : String) ≠ "위쪽 셀로 이동 실패") ∧
    ((HwpTableTools.move_to_lower_cell (some c)).2 = [Call.runAction "TableLowerCell"] ∧
     (∀ b, c.run_action "TableLowerCell" = Except.ok b →
        (HwpTableTools.move_to_lower_cell (some c)).1 = if b then "아래쪽 셀로 이동 완료" else "아래쪽 셀로 이동 실패") ∧
     ("아래쪽 셀로 이동 완료" : String) ≠ "아래쪽 셀로 이동 실패") ∧
    ((HwpTableTools.merge_tables (some c)).2 = [Call.runAction "TableMergeTable"] ∧
     (∀ b, c.run_action "TableMergeTable" = Except.ok b →
        (HwpTableTools.merge_tables (some c)).1 = if b then "표 병합 완료" else "표 병합 실패") ∧
     ("표 병합 완료" : String) ≠ "표 병합 실패") := by
  refine ⟨⟨?_, ?_, ?_⟩, ⟨?_, ?_, ?_⟩, ⟨?_, ?_, ?_⟩, ⟨?_, ?_, ?_⟩, ⟨?_, ?_, ?_⟩, ⟨?_, ?_, ?_⟩, ⟨?_, ?_, ?_⟩, ⟨?_, ?_, ?_⟩, ⟨?_, ?_, ?_⟩⟩
  · exact runActionResult_trace (c.run_action "TableInsertLeftColumn") "왼쪽 칼럼 삽입 완료" "왼쪽 칼럼 삽입 실패" "TableInsertLeftColumn"
  · intro b hb
    have hm := runActionResult_msg b "왼쪽 칼럼 삽입 완료" "왼쪽 칼럼 삽입 실패" "TableInsertLeftColumn"
    rw [← hb] at hm
    exact hm
  · decide
  · exact runActionResult_trace (c.run_action "TableInsertRightColumn") "오른쪽 칼럼 삽입 완료" "오른쪽 칼럼 삽입 실패" "TableInsertRightColumn"
  · intro b hb
    have hm := runActionResult_msg b "오른쪽 칼럼 삽입 완료" "오른쪽 칼럼 삽입 실패" "TableInsertRightColumn"
    rw [← hb] at hm
    exact hm
  · decide
  · exact runActionResult_trace (c.run_action "TableInsertUpperRow") "위쪽 행 삽입 완료" "위쪽 행 삽입 실패" "TableInsertUpperRow"
  · intro b hb
    have hm := runActionResult_msg b "위쪽 행 삽입 완료" "위쪽 행 삽입 실패" "TableInsertUpperRow"
    rw [← hb] at hm
    exact hm
  · decide
  · exact runActionResult_trace (c.run_action "TableInsertLowerRow") "아래쪽 행 삽입 완료" "아래쪽 행 삽입 실패" "TableInsertLowerRow"
  · intro b hb
    have hm := runActionResult_msg b "아래쪽 행 삽입 완료" "아래쪽 행 삽입 실패" "TableInsertLowerRow"
    rw [← hb] at hm
    exact hm
  · decide
  · exact runActionResult_trace (c.run_action "TableLeftCell") "왼쪽 셀로 이동 완료" "왼쪽 셀로 이동 실패" "TableLeftCell"
  · intro b hb
    have hm := runActionResult_msg b "왼쪽 셀로 이동 완료" "왼쪽 셀로 이동 실패" "TableLeftCell"
    rw [← hb] at hm
    exact hm
  · decide
  · exact runActionResult_trace (c.run_action "TableRightCell") "오른쪽 셀로 이동 완료" "오른쪽 셀로 이동 실패" "TableRightCell"
  · intro b hb
    have hm := runActionResult_msg b "오른쪽 셀로 이동 완료" "오른쪽 셀로 이동 실패" "TableRightCell"
    rw [← hb] at hm
    exact hm
  · decide
  · exact runActionResult_trace (c.run_action "TableUpperCell") "위쪽 셀로 이동 완료" "위쪽 셀로 이동 실패" "TableUpperCell"
  · intro b hb
    have hm := runActionResult_msg b "위쪽 셀로 이동 완료" "위쪽 셀로 이동 실패" "TableUpperCell"
    rw [← hb] at hm
    exact hm
  · decide
  · exact runActionResult_trace (c.run_action "TableLowerCell") "아래쪽 셀로 이동 완료" "아래쪽 셀로 이동 실패" "TableLowerCell"
  · intro b hb
    have hm := runActionResult_msg b "아래쪽 셀로 이동 완료" "아래쪽 셀로 이동 실패" "TableLowerCell"
    rw [← hb] at hm
    exact hm
  · decide
  · exact runActionResult_trace (c.run_action "TableMergeTable") "표 병합 완료" "표 병합 실패" "TableMergeTable"
  · intro b hb
    have hm := runActionResult_msg b "표 병합 완료" "표 병합 실패" "TableMergeTable"
    rw [← hb] at hm
    exact hm
  · decide

/-- Witness for C6: a controller whose `run_action` returns `True`. -/
theorem claim_C6_witness :
    (HwpTableTools.insert_left_column (some okTrueCtrl)).1
      = (if true then "왼쪽 칼럼 삽입 완료" else "왼쪽 칼럼 삽입 실패") ∧
    (HwpTableTools.merge_tables (some okTrueCtrl)).2 = [Call.runAction "TableMergeTable"] :=
  ⟨(claim_C6_run_action_ops okTrueCtrl).1.2.1 true rfl,
   ((claim_C6_run_action_ops okTrueCtrl).2.2.2.2.2.2.2.2).1⟩

/-- Counterexample to C4 as stated: an exception raised by the controller's
bulk fill inside `create_table_with_data` is caught but converted to a
`"표는 생성되었으나 데이터 입력 중 오류 발생: ..."` string, which does not carry
the `"Error: "` prefix the claim requires. -/
theorem claim_C4_counterexample :
    (HwpTableTools.create_table_with_data (some (fillRaisesCtrl "boom")) 2 2 (some "[[1]]") false).1
      = "표는 생성되었으나 데이터 입력 중 오류 발생: boom" ∧
    strStarts "Error: " "표는 생성되었으나 데이터 입력 중 오류 발생: boom" = false :=
  ⟨rfl, rfl⟩

/-- C4 (amended): every operation catches controller/JSON exceptions and
returns an ordinary value (the embedding is total, so nothing escapes and no
typed error exists), but the caught exception is not always converted to an
`"Error: <message>"` string: the twelve simple operations do return
`"Error: " ++ e`, while `create_table_with_data`'s data-phase handlers return
`"표는 생성되었으나 ..."` strings and `parse_table_data` converts a JSON decode
error to the empty list. -/
theorem claim_C4_amended (e : String) (rows cols row col start_row start_col end_row end_col : Int)
    (text : String) (data_list : List JValue) (hh : Bool) :
    HwpTableTools.insert_table (some (raiseCtrl e)) rows cols
      = ("Error: " ++ e, [Call.insertTable rows cols]) ∧
    HwpTableTools.set_cell_text (some (raiseCtrl e)) row col text
      = ("Error: " ++ e, [Call.fillTableCell row col text]) ∧
    HwpTableTools.merge_cells (some (raiseCtrl e)) start_row start_col end_row end_col
      = ("Error: " ++ e, [Call.mergeTableCells start_row start_col end_row end_col]) ∧
    HwpTableTools.get_cell_text (some (raiseCtrl e)) row col
      = ("Error: " ++ e, [Call.getTableCellText row col]) ∧
    HwpTableTools.fill_table_with_data (some (raiseCtrl e)) (JValue.null :: data_list)
        start_row start_col hh
      = ("Error: " ++ e,
         [Call.fillTableWithData (["None"] :: data_list.map HwpTableTools.processDataRow)
            start_row start_col hh]) ∧
    HwpTableTools.create_table_with_data (some (raiseCtrl e)) rows cols (some "[[1]]") hh
      = ("Error: " ++ e, [Call.insertTable rows cols]) ∧
    HwpTableTools.create_table_with_data (some (fillRaisesCtrl e)) rows cols (some "[[1]]") hh
      = ("표는 생성되었으나 데이터 입력 중 오류 발생: " ++ e,
         [Call.insertTable rows cols, Call.fillTableWithData [["1"]] 1 1 hh]) ∧
    HwpTableTools.insert_left_column (some (raiseCtrl e)) = ("Error: " ++ e, [Call.runAction "TableInsertLeftColumn"]) ∧
    HwpTableTools.insert_right_column (some (raiseCtrl e)) = ("Error: " ++ e, [Call.runAction "TableInsertRightColumn"]) ∧
    HwpTableTools.insert_upper_row (some (raiseCtrl e)) = ("Error: " ++ e, [Call.runAction "TableInsertUpperRow"]) ∧
    HwpTableTools.insert_lower_row (some (raiseCtrl e)) = ("Error: " ++ e, [Call.runAction "TableInsertLowerRow"]) ∧
    HwpTableTools.move_to_left_cell (some (raiseCtrl e)) = ("Error: " ++ e, [Call.runAction "TableLeftCell"]) ∧
    HwpTableTools.move_to_right_cell (some (raiseCtrl e)) = ("Error: " ++ e, [Call.runAction "TableRightCell"]) ∧
    HwpTableTools.move_to_upper_cell (some (raiseCtrl e)) = ("Error: " ++ e, [Call.runAction "TableUpperCell"]) ∧
    HwpTableTools.move_to_lower_cell (some (raiseCtrl e)) = ("Error: " ++ e, [Call.runAction "TableLowerCell"]) ∧
    HwpTableTools.merge_tables (some (raiseCtrl e)) = ("Error: " ++ e, [Call.runAction "TableMergeTable"]) ∧
    (∀ s msg, json_loads s = Except.error msg → parse_table_data s = []) := by
  refine ⟨rfl, rfl, rfl, rfl, rfl, rfl, rfl, rfl, rfl, rfl, rfl, rfl, rfl, rfl, rfl, rfl, ?_⟩
  intro s msg h
  unfold parse_table_data
  rw [h]

/-- Witness for C4 (amended): a concrete malformed input for the
`parse_table_data` conjunct. -/
theorem claim_C4_witness : parse_table_data "[" = [] :=
  (claim_C4_amended "x" 1 1 1 1 1 1 1 1 "t" [] false).2.2.2.2.2.2.2.2.2.2.2.2.2.2.2.2 "[" "Expecting value" rfl

/-- Counterexample to C1 as stated: with a controller whose `fill_table_cell`
returns `False`, `set_cell_text` returns `"셀(1, 1)에 텍스트 입력 실패"`, which
is neither the operation's success message nor a string of the form
`"Error: <message>"`. -/
theorem claim_C1_counterexample :
    (HwpTableTools.set_cell_text (some okFalseCtrl) 1 1 "x").1 = "셀(1, 1)에 텍스트 입력 실패" ∧
    ("셀(1, 1)에 텍스트 입력 실패" : String) ≠ "셀(1, 1)에 텍스트 입력 완료" ∧
    strStarts "Error: " "셀(1, 1)에 텍스트 입력 실패" = false :=
  ⟨rfl, by decide, rfl⟩

/-- Definitional unfolding of `create_table_with_data` with `data = None`. -/
theorem create_unfold_none (c : HwpController) (rows cols : Int) (hh : Bool) :
    HwpTableTools.create_table_with_data (some c) rows cols none hh =
      (match c.insert_table rows cols with
       | .error e => ("Error: " ++ e, [Call.insertTable rows cols])
       | .ok false => ("Error: Failed to create table", [Call.insertTable rows cols])
       | .ok true =>
         ("표 생성 완료 (" ++ toString rows ++ "x" ++ toString cols ++ " 크기)",
          [Call.insertTable rows cols])) := rfl

/-- The message of `createFillOutcome` is the combined success message or a
`"표는 생성되었으나"`-prefixed failure report. -/
theorem createFillOutcome_catalog (rows cols : Int) (sda : List (List String)) (hh : Bool)
    (r : Except String Bool) :
    (HwpTableTools.createFillOutcome rows cols sda hh r).1
      = "표 생성 및 데이터 입력 완료 (" ++ toString rows ++ "x" ++ toString cols ++ " 크기)" ∨
    ∃ t, (HwpTableTools.createFillOutcome rows cols sda hh r).1 = "표는 생성되었으나" ++ t := by
  rcases r with e | b
  · exact Or.inr ⟨" 데이터 입력 중 오류 발생: " ++ e, rfl⟩
  · cases b
    · exact Or.inr ⟨" 데이터 입력에 실패했습니다.", rfl⟩
    · exact Or.inl rfl

/-- The message of `createDataPhase` is the combined success message or a
`"표는 생성되었으나"`-prefixed failure report. -/
theorem createDataPhase_catalog (c : HwpController) (rows cols : Int) (hh : Bool) (v : JValue) :
    (HwpTableTools.createDataPhase c rows cols hh v).1
      = "표 생성 및 데이터 입력 완료 (" ++ toString rows ++ "x" ++ toString cols ++ " 크기)" ∨
    ∃ t, (HwpTableTools.createDataPhase c rows cols hh v).1 = "표는 생성되었으나" ++ t := by
  cases v with
  | arr data_rows =>
    simp only [HwpTableTools.createDataPhase]
    cases hre : data_rows.isEmpty with
    | true => exact Or.inr ⟨" 데이터 리스트가 비어 있습니다.", rfl⟩
    | false =>
      cases hall : data_rows.all isList with
      | false => exact Or.inr ⟨" 데이터가 2차원 배열 형식이 아닙니다.", rfl⟩
      | true => exact createFillOutcome_catalog rows cols _ hh _
  | null => exact Or.inr ⟨" 데이터가 리스트 형식이 아닙니다. 받은 데이터 타입: " ++ pyTypeName JValue.null, rfl⟩
  | bool b => exact Or.inr ⟨" 데이터가 리스트 형식이 아닙니다. 받은 데이터 타입: " ++ pyTypeName (JValue.bool b), rfl⟩
  | int n => exact Or.inr ⟨" 데이터가 리스트 형식이 아닙니다. 받은 데이터 타입: " ++ pyTypeName (JValue.int n), rfl⟩
  | float m e => exact Or.inr ⟨" 데이터가 리스트 형식이 아닙니다. 받은 데이터 타입: " ++ pyTypeName (JValue.float m e), rfl⟩
  | nan => exact Or.inr ⟨" 데이터가 리스트 형식이 아닙니다. 받은 데이터 타입: " ++ pyTypeName JValue.nan, rfl⟩
  | inf neg => exact Or.inr ⟨" 데이터가 리스트 형식이 아닙니다. 받은 데이터 타입: " ++ pyTypeName (JValue.inf neg), rfl⟩
  | str s => exact Or.inr ⟨" 데이터가 리스트 형식이 아닙니다. 받은 데이터 타입: " ++ pyTypeName (JValue.str s), rfl⟩
  | obj kvs => exact Or.inr ⟨" 데이터가 리스트 형식이 아닙니다. 받은 데이터 타입: " ++ pyTypeName (JValue.obj kvs), rfl⟩

/-- C1 (amended): every public operation returns a human-readable status
string from its fixed catalog — the not-set error, its success message, or a
failure report — but not every failure report carries the `"Error: "` prefix:
`set_cell_text`, `merge_cells`, `fill_table_with_data` and the nine
`run_action` operations use plain `"...실패"` strings on a `False` return,
`create_table_with_data`'s data-phase failures use `"표는 생성되었으나 ..."`
strings, and `get_cell_text` returns the raw cell text on success.  Exceptions
are reported as `"Error: <message>"`; no other result shapes occur. -/
theorem claim_C1_amended_result_catalog (ctrl : Option HwpController)
    (rows cols row col start_row start_col end_row end_col : Int)
    (text : String) (data : Option String) (data_list : List JValue) (hh : Bool) :
    ((HwpTableTools.insert_table ctrl rows cols).1 = "Error: HWP Controller is not set" ∨
     (HwpTableTools.insert_table ctrl rows cols).1
       = "Table inserted with " ++ toString rows ++ " rows and " ++ toString cols ++ " columns" ∨
     (HwpTableTools.insert_table ctrl rows cols).1 = "Error: Failed to insert table" ∨
     ∃ e, (HwpTableTools.insert_table ctrl rows cols).1 = "Error: " ++ e) ∧
    ((HwpTableTools.set_cell_text ctrl row col text).1 = "Error: HWP Controller is not set" ∨
     (HwpTableTools.set_cell_text ctrl row col text).1
       = "셀(" ++ toString row ++ ", " ++ toString col ++ ")에 텍스트 입력 완료" ∨
     (HwpTableTools.set_cell_text ctrl row col text).1
       = "셀(" ++ toString row ++ ", " ++ toString col ++ ")에 텍스트 입력 실패" ∨
     ∃ e, (HwpTableTools.set_cell_text ctrl row col text).1 = "Error: " ++ e) ∧
    ((HwpTableTools.merge_cells ctrl start_row start_col end_row end_col).1 = "Error: HWP Controller is not set" ∨
     (HwpTableTools.merge_cells ctrl start_row start_col end_row end_col).1
       = "셀 병합 완료 (" ++ toString start_row ++ "," ++ toString start_col ++ ") - (" ++
           toString end_row ++ "," ++ toString end_col ++ ")" ∨
     (HwpTableTools.merge_cells ctrl start_row start_col end_row end_col).1 = "셀 병합 실패" ∨
     ∃ e, (HwpTableTools.merge_cells ctrl start_row start_col end_row end_col).1
       = "Error: " ++ e) ∧
    ((HwpTableTools.get_cell_text ctrl row col).1 = "Error: HWP Controller is not set" ∨
     (∃ c s, ctrl = some c ∧ c.get_table_cell_text row col = Except.ok s ∧
        (HwpTableTools.get_cell_text ctrl row col).1 = s) ∨
     ∃ e, (HwpTableTools.get_cell_text ctrl row col).1 = "Error: " ++ e) ∧
    ((HwpTableTools.create_table_with_data ctrl rows cols data hh).1 = "Error: HWP Controller is not set" ∨
     (HwpTableTools.create_table_with_data ctrl rows cols data hh).1
       = "Error: Failed to create table" ∨
     (∃ e, (HwpTableTools.create_table_with_data ctrl rows cols data hh).1 = "Error: " ++ e) ∨
     (HwpTableTools.create_table_with_data ctrl rows cols data hh).1
       = "표 생성 완료 (" ++ toString rows ++ "x" ++ toString cols ++ " 크기)" ∨
     (HwpTableTools.create_table_with_data ctrl rows cols data hh).1
       = "표 생성 및 데이터 입력 완료 (" ++ toString rows ++ "x" ++ toString cols ++ " 크기)" ∨
     ∃ t, (HwpTableTools.create_table_with_data ctrl rows cols data hh).1
       = "표는 생성되었으나" ++ t) ∧
    ((HwpTableTools.fill_table_with_data ctrl data_list start_row start_col hh).1 = "Error: HWP Controller is not set" ∨
     (HwpTableTools.fill_table_with_data ctrl data_list start_row start_col hh).1
       = "Error: Data is required" ∨
     (HwpTableTools.fill_table_with_data ctrl data_list start_row start_col hh).1
       = "표 데이터 입력 완료" ∨
     (HwpTableTools.fill_table_with_data ctrl data_list start_row start_col hh).1
       = "표 데이터 입력 실패" ∨
     ∃ e, (HwpTableTools.fill_table_with_data ctrl data_list start_row start_col hh).1
       = "Error: " ++ e) ∧
    ((HwpTableTools.insert_left_column ctrl).1 = "Error: HWP Controller is not set" ∨
     (HwpTableTools.insert_left_column ctrl).1 = "왼쪽 칼럼 삽입 완료" ∨ (HwpTableTools.insert_left_column ctrl).1 = "왼쪽 칼럼 삽입 실패" ∨
     ∃ e, (HwpTableTools.insert_left_column ctrl).1 = "Error: " ++ e) ∧
    ((HwpTableTools.insert_right_column ctrl).1 = "Error: HWP Controller is not set" ∨
     (HwpTableTools.insert_right_column ctrl).1 = "오른쪽 칼럼 삽입 완료" ∨ (HwpTableTools.insert_right_column ctrl).1 = "오른쪽 칼럼 삽입 실패" ∨
     ∃ e, (HwpTableTools.insert_right_column ctrl).1 = "Error: " ++ e) ∧
    ((HwpTableTools.insert_upper_row ctrl).1 = "Error: HWP Controller is not set" ∨
     (HwpTableTools.insert_upper_row ctrl).1 = "위쪽 행 삽입 완료" ∨ (HwpTableTools.insert_upper_row ctrl).1 = "위쪽 행 삽입 실패" ∨
     ∃ e, (HwpTableTools.insert_upper_row ctrl).1 = "Error: " ++ e) ∧
    ((HwpTableTools.insert_lower_row ctrl).1 = "Error: HWP Controller is not set" ∨
     (HwpTableTools.insert_lower_row ctrl).1 = "아래쪽 행 삽입 완료" ∨ (HwpTableTools.insert_lower_row ctrl).1 = "아래쪽 행 삽입 실패" ∨
     ∃ e, (HwpTableTools.insert_lower_row ctrl).1 = "Error: " ++ e) ∧
    ((HwpTableTools.move_to_left_cell ctrl).1 = "Error: HWP Controller is not set" ∨
     (HwpTableTools.move_to_left_cell ctrl).1 = "왼쪽 셀로 이동 완료" ∨ (HwpTableTools.move_to_left_cell ctrl).1 = "왼쪽 셀로 이동 실패" ∨
     ∃ e, (HwpTableTools.move_to_left_cell ctrl).1 = "Error: " ++ e) ∧
    ((HwpTableTools.move_to_right_cell ctrl).1 = "Error: HWP Controller is not set" ∨
     (HwpTableTools.move_to_right_cell ctrl).1 = "오른쪽 셀로 이동 완료" ∨ (HwpTableTools.move_to_right_cell ctrl).1 = "오른쪽 셀로 이동 실패" ∨
     ∃ e, (HwpTableTools.move_to_right_cell ctrl).1 = "Error: " ++ e) ∧
    ((HwpTableTools.move_to_upper_cell ctrl).1 = "Error: HWP Controller is not set" ∨
     (HwpTableTools.move_to_upper_cell ctrl).1 = "위쪽 셀로 이동 완료" ∨ (HwpTableTools.move_to_upper_cell ctrl).1 = "위쪽 셀로 이동 실패" ∨
     ∃ e, (HwpTableTools.move_to_upper_cell ctrl).1 = "Error: " ++ e) ∧
    ((HwpTableTools.move_to_lower_cell ctrl).1 = "Error: HWP Controller is not set" ∨
     (HwpTableTools.move_to_lower_cell ctrl).1 = "아래쪽 셀로 이동 완료" ∨ (HwpTableTools.move_to_lower_cell ctrl).1 = "아래쪽 셀로 이동 실패" ∨
     ∃ e, (HwpTableTools.move_to_lower_cell ctrl).1 = "Error: " ++ e) ∧
    ((HwpTableTools.merge_tables ctrl).1 = "Error: HWP Controller is not set" ∨
     (HwpTableTools.merge_tables ctrl).1 = "표 병합 완료" ∨ (HwpTableTools.merge_tables ctrl).1 = "표 병합 실패" ∨
     ∃ e, (HwpTableTools.merge_tables ctrl).1 = "Error: " ++ e) := by
  refine ⟨?_, ?_, ?_, ?_, ?_, ?_, ?_, ?_, ?_, ?_, ?_, ?_, ?_, ?_, ?_⟩
  · rcases ctrl with _ | c
    · exact Or.inl rfl
    · rw [insert_table_unfold]
      rcases h : c.insert_table rows cols with e | b
      · exact Or.inr (Or.inr (Or.inr ⟨e, rfl⟩))
      · cases b
        · exact Or.inr (Or.inr (Or.inl rfl))
        · exact Or.inr (Or.inl rfl)
  · rcases ctrl with _ | c
    · exact Or.inl rfl
    · rw [set_cell_text_unfold]
      rcases h : c.fill_table_cell row col text with e | b
      · exact Or.inr (Or.inr (Or.inr ⟨e, rfl⟩))
      · cases b
        · exact Or.inr (Or.inr (Or.inl rfl))
        · exact Or.inr (Or.inl rfl)
  · rcases ctrl with _ | c
    · exact Or.inl rfl
    · rw [merge_cells_unfold]
      rcases h : c.merge_table_cells start_row start_col end_row end_col with e | b
      · exact Or.inr (Or.inr (Or.inr ⟨e, rfl⟩))
      · cases b
        · exact Or.inr (Or.inr (Or.inl rfl))
        · exact Or.inr (Or.inl rfl)
  · rcases ctrl with _ | c
    · exact Or.inl rfl
    · rw [get_cell_text_unfold]
      rcases h : c.get_table_cell_text row col with e | s
      · exact Or.inr (Or.inr ⟨e, rfl⟩)
      · exact Or.inr (Or.inl ⟨c, s, rfl, h, rfl⟩)
  · rcases ctrl with _ | c
    · exact Or.inl rfl
    · rcases data with _ | ds
      · rw [create_unfold_none]
        rcases h : c.insert_table rows cols with e | b
        · exact Or.inr (Or.inr (Or.inl ⟨e, rfl⟩))
        · cases b
          · exact Or.inr (Or.inl rfl)
          · exact Or.inr (Or.inr (Or.inr (Or.inl rfl)))
      · rw [create_unfold]
        rcases h : c.insert_table rows cols with e | b
        · exact Or.inr (Or.inr (Or.inl ⟨e, rfl⟩))
        · cases b
          · exact Or.inr (Or.inl rfl)
          · cases hde : ds.isEmpty with
            | true => exact Or.inr (Or.inr (Or.inr (Or.inl rfl)))
            | false =>
              rcases hj : json_loads ds with e2 | v
              · exact Or.inr (Or.inr (Or.inr (Or.inr (Or.inr
                  ⟨" JSON 데이터 파싱 오류: " ++ e2, rfl⟩))))
              · rcases createDataPhase_catalog c rows cols hh v with hsucc | ⟨t, ht⟩
                · exact Or.inr (Or.inr (Or.inr (Or.inr (Or.inl hsucc))))
                · exact Or.inr (Or.inr (Or.inr (Or.inr (Or.inr ⟨t, ht⟩))))
  · rcases ctrl with _ | c
    · exact Or.inl rfl
    · rw [fill_table_unfold]
      cases hde : data_list.isEmpty with
      | true => exact Or.inr (Or.inl rfl)
      | false =>
        rcases h : c.fill_table_with_data (data_list.map HwpTableTools.processDataRow)
            start_row start_col hh with e | b
        · exact Or.inr (Or.inr (Or.inr (Or.inr ⟨e, rfl⟩)))
        · cases b
          · exact Or.inr (Or.inr (Or.inr (Or.inl rfl)))
          · exact Or.inr (Or.inr (Or.inl rfl))
  · rcases ctrl with _ | c
    · exact Or.inl rfl
    · exact Or.inr (runActionResult_catalog (c.run_action "TableInsertLeftColumn") "왼쪽 칼럼 삽입 완료" "왼쪽 칼럼 삽입 실패" "TableInsertLeftColumn")
  · rcases ctrl with _ | c
    · exact Or.inl rfl
    · exact Or.inr (runActionResult_catalog (c.run_action "TableInsertRightColumn") "오른쪽 칼럼 삽입 완료" "오른쪽 칼럼 삽입 실패" "TableInsertRightColumn")
  · rcases ctrl with _ | c
    · exact Or.inl rfl
    · exact Or.inr (runActionResult_catalog (c.run_action "TableInsertUpperRow") "위쪽 행 삽입 완료" "위쪽 행 삽입 실패" "TableInsertUpperRow")
  · rcases ctrl with _ | c
    · exact Or.inl rfl
    · exact Or.inr (runActionResult_catalog (c.run_action "TableInsertLowerRow") "아래쪽 행 삽입 완료" "아래쪽 행 삽입 실패" "TableInsertLowerRow")
  · rcases ctrl with _ | c
    · exact Or.inl rfl
    · exact Or.inr (runActionResult_catalog (c.run_action "TableLeftCell") "왼쪽 셀로 이동 완료" "왼쪽 셀로 이동 실패" "TableLeftCell")
  · rcases ctrl with _ | c
    · exact Or.inl rfl
    · exact Or.inr (runActionResult_catalog (c.run_action "TableRightCell") "오른쪽 셀로 이동 완료" "오른쪽 셀로 이동 실패" "TableRightCell")
  · rcases ctrl with _ | c
    · exact Or.inl rfl
    · exact Or.inr (runActionResult_catalog (c.run_action "TableUpperCell") "위쪽 셀로 이동 완료" "위쪽 셀로 이동 실패" "TableUpperCell")
  · rcases ctrl with _ | c
    · exact Or.inl rfl
    · exact Or.inr (runActionResult_catalog (c.run_action "TableLowerCell") "아래쪽 셀로 이동 완료" "아래쪽 셀로 이동 실패" "TableLowerCell")
  · rcases ctrl with _ | c
    · exact Or.inl rfl
    · exact Or.inr (runActionResult_catalog (c.run_action "TableMergeTable") "표 병합 완료" "표 병합 실패" "TableMergeTable")

/-- Witness for C8: with a succeeding controller, `create_table_with_data` on
`'[[null]]'` forwards `[["None"]]` to the controller. -/
theorem claim_C8_witness :
    (HwpTableTools.create_table_with_data (some okTrueCtrl) 1 1 (some "[[null]]") false).2
      = [Call.insertTable 1 1, Call.fillTableWithData [["None"]] 1 1 false] :=
  claim_C8_null_inconsistency.2.2 okTrueCtrl 1 1 false rfl
